import Mathlib

/-!
Shallow embedding of the Nexus Luma widget repository.

Two components are modelled, each from its own source file:

* the embedded custom element `nxl-ai-widget` (Shadow DOM web component);
* the iframe-host loader `nxl-iframe-host.js` (`NXL.mountIframeWidget`).

State is modelled as explicit records; every DOM mutation the source
performs on tracked elements (class lists, status text, transcript,
input value) becomes a field update, console output becomes the
`warnings`/`errors` lists, and each invocation of the third-party
client or of the browser microphone API is recorded in a trace list.
The third-party (Vapi) client is duck-typed in the source, so it is
embedded as a record of optional capabilities, each carrying the
outcome (resolve or throw) its invocation would produce.
-/

/-- Outcome of awaiting a third-party (Vapi) method: the promise either
resolves (`ok`) or rejects / the call throws (`err`). -/
inductive CallResult
  | ok
  | err
deriving DecidableEq, Repr

/-- Duck-typed capability surface of the third-party client consumed by the
widget: `start`, `connectToAssistant`, `stop`, `sendText`.  `none` means the
method is absent on the instance; `some r` means invoking it yields `r`. -/
structure VapiClient where
  start : Option CallResult
  connectToAssistant : Option CallResult
  stop : Option CallResult
  sendText : Option CallResult
deriving DecidableEq, Repr

/-- An invocation of the environment / third-party client recorded by the
model: microphone permission request or a client method call. -/
inductive VapiCall
  | getUserMedia
  | startCall (assistantId : String)
  | connectCall (assistantId : String)
  | stopCall
  | sendTextCall (text : String)
deriving DecidableEq, Repr

/-- One transcript entry rendered by `_appendMsg(type, content)`:
`type` is the CSS role class (`user` / `assistant`), `text` the content. -/
structure ChatMsg where
  role : String
  text : String
deriving DecidableEq, Repr

/-- Observable state of one `nxl-ai-widget` element: the `_isOpen` /
`_isConnected` / `_isListening` flags, the tracked element classes
(`panel.open`, `fab.active`, `mic.on`, projection opacity), status text,
transcript, composer input value, console output, the client handle
`_vapi`, the `_mounted` guard, and whether `_initVapiClient` reached the
point where the click handlers were attached. -/
structure WidgetState where
  isOpen : Bool
  isConnected : Bool
  isListening : Bool
  panelOpen : Bool
  fabActive : Bool
  micOn : Bool
  projectionOn : Bool
  status : String
  chat : List ChatMsg
  textInput : String
  warnings : List String
  errors : List String
  vapi : Option VapiClient
  mounted : Bool
  handlersWired : Bool
deriving DecidableEq, Repr

/-- State after the constructor ran and `_render` built the DOM
(status element initially shows `Idle`, everything else empty/false). -/
def initialState : WidgetState :=
  { isOpen := false, isConnected := false, isListening := false
  , panelOpen := false, fabActive := false, micOn := false
  , projectionOn := false, status := "Idle", chat := [], textInput := ""
  , warnings := [], errors := [], vapi := none, mounted := false
  , handlersWired := false }

/-- `open()`: sets `_isOpen = true`, adds the `open` / `active` classes and
shows the projection line (the source name `open` is a Lean keyword). -/
def widgetOpen (s : WidgetState) : WidgetState :=
  { s with isOpen := true, panelOpen := true, fabActive := true
         , projectionOn := true }

/-- `close()`: sets `_isOpen = false`, removes the `open` / `active` classes
and hides the projection line. -/
def widgetClose (s : WidgetState) : WidgetState :=
  { s with isOpen := false, panelOpen := false, fabActive := false
         , projectionOn := false }

/-- `toggle()`: `this._isOpen ? this.close() : this.open()`. -/
def widgetToggle (s : WidgetState) : WidgetState :=
  if s.isOpen then widgetClose s else widgetOpen s

/-- One public panel call: `open()`, `close()` or `toggle()`. -/
inductive PanelOp
  | opOpen
  | opClose
  | opToggle
deriving DecidableEq, Repr

/-- Run a public panel call on the widget state. -/
def applyPanelOp : PanelOp → WidgetState → WidgetState
  | .opOpen, s => widgetOpen s
  | .opClose, s => widgetClose s
  | .opToggle, s => widgetToggle s

/-- Run a sequence of public panel calls, left to right. -/
def applyPanelOps (ops : List PanelOp) (s : WidgetState) : WidgetState :=
  ops.foldl (fun t o => applyPanelOp o t) s

/-- Spec-side reduction of one call on the abstract `open` flag
(stated from the spec's words, to be compared with the embedding). -/
def parityStep (b : Bool) : PanelOp → Bool
  | .opOpen => true
  | .opClose => false
  | .opToggle => !b

/-- Spec-side parity reduction of a call sequence on the abstract flag. -/
def parityReduce (ops : List PanelOp) (b : Bool) : Bool :=
  ops.foldl parityStep b

/-- JavaScript `String.prototype.trim`: strip leading and trailing
whitespace (embedded over the character list). -/
def jsTrim (s : String) : String :=
  String.mk
    ((((s.toList.dropWhile Char.isWhitespace).reverse).dropWhile
        Char.isWhitespace).reverse)

/-- `_appendMsg(type, content)`: append one entry to the chat view. -/
def appendMsg (role content : String) (s : WidgetState) : WidgetState :=
  { s with chat := s.chat ++ [{ role := role, text := content }] }

/-- `_setStatus(s)`: replace the status element's text. -/
def setStatus (t : String) (s : WidgetState) : WidgetState :=
  { s with status := t }

/-- `_sendText()`: trim the composer input; return on empty; if the client
exposes `sendText`, await it — on resolve append a `user` transcript entry
and clear the input, on throw log the error; if the capability (or the
client) is absent, warn. The second component records the third-party
invocations performed. -/
def widgetSendText (s : WidgetState) : WidgetState × List VapiCall :=
  let value := jsTrim s.textInput
  if value = "" then (s, [])
  else
    match s.vapi with
    | some v =>
      match v.sendText with
      | some CallResult.ok =>
        let s1 := appendMsg "user" value s
        ({ s1 with textInput := "" }, [VapiCall.sendTextCall value])
      | some CallResult.err =>
        ({ s with errors := s.errors ++ ["sendText failed"] },
         [VapiCall.sendTextCall value])
      | none =>
        ({ s with warnings :=
             s.warnings ++ ["sendText API not available in this SDK version."] },
         [])
    | none =>
      ({ s with warnings :=
           s.warnings ++ ["sendText API not available in this SDK version."] },
       [])

/-- `_toggleMic(assistantId)`: no-op without a client handle.  When not
listening: request the microphone (`micGranted` is the environment's
answer; denial throws into the catch block), then try `start`, then
`connectToAssistant`, warning when neither exists; the lines
`this._isListening = true`, `mic.classList.add('on')` and
`_setStatus('Listening...')` run after the method chain in every
non-throwing path, including the no-API path.  A throw from the awaited
start (or the denied permission) lands in the catch block: log and set
status `Mic blocked`.  When listening: await `stop` if present; the
assignments `isListening = false` / class removal / `Idle` status only run
when `stop` did not throw, since a throw jumps to the catch block which
only logs. -/
def widgetToggleMic (assistantId : String) (micGranted : Bool)
    (s : WidgetState) : WidgetState × List VapiCall :=
  match s.vapi with
  | none => (s, [])
  | some v =>
    if s.isListening = false then
      if micGranted = false then
        ({ s with errors := s.errors ++ ["Mic permission denied or start failed"]
                , status := "Mic blocked" },
         [VapiCall.getUserMedia])
      else
        match v.start with
        | some CallResult.ok =>
          ({ s with isListening := true, micOn := true
                  , status := "Listening..." },
           [VapiCall.getUserMedia, VapiCall.startCall assistantId])
        | some CallResult.err =>
          ({ s with errors := s.errors ++ ["Mic permission denied or start failed"]
                  , status := "Mic blocked" },
           [VapiCall.getUserMedia, VapiCall.startCall assistantId])
        | none =>
          match v.connectToAssistant with
          | some CallResult.ok =>
            ({ s with isListening := true, micOn := true
                    , status := "Listening..." },
             [VapiCall.getUserMedia, VapiCall.connectCall assistantId])
          | some CallResult.err =>
            ({ s with errors := s.errors ++ ["Mic permission denied or start failed"]
                    , status := "Mic blocked" },
             [VapiCall.getUserMedia, VapiCall.connectCall assistantId])
          | none =>
            ({ s with warnings :=
                 s.warnings ++ ["No start/connectToAssistant API found on Vapi instance."]
                    , isListening := true, micOn := true
                    , status := "Listening..." },
             [VapiCall.getUserMedia])
    else
      match v.stop with
      | none =>
        ({ s with isListening := false, micOn := false, status := "Idle" }, [])
      | some CallResult.ok =>
        ({ s with isListening := false, micOn := false, status := "Idle" },
         [VapiCall.stopCall])
      | some CallResult.err =>
        ({ s with errors := s.errors ++ ["stop() failed"] },
         [VapiCall.stopCall])

/-- Outcome of `_initVapiClient` after the SDK script settled:
`window.Vapi` may still be missing, `new window.Vapi(publicKey)` may
throw, or construction succeeds yielding a client. -/
inductive InitOutcome
  | vapiMissing
  | ctorThrows
  | ctorOk (client : VapiClient)
deriving DecidableEq, Repr

/-- Outcome of `_ensureVapi`: the SDK script loads (then `_initVapiClient`
runs with its own outcome) or fails to load (the promise rejects). -/
inductive LoadOutcome
  | loadOk (io : InitOutcome)
  | loadFail
deriving DecidableEq, Repr

/-- `_initVapiClient(publicKey, assistantId)`: error out if `window.Vapi`
is absent; otherwise construct the client — a constructor throw leaves
`_vapi` null, logs, and sets status `Init error`; on success the handle is
stored and the fab/close/mic/mode/send/input listeners are attached (the
wiring lines sit after construction inside the same `try`). -/
def initVapiClient (io : InitOutcome) (s : WidgetState) : WidgetState :=
  match io with
  | .vapiMissing =>
    { s with errors := s.errors ++ ["Vapi SDK unavailable on window."] }
  | .ctorThrows =>
    { s with errors := s.errors ++ ["Error creating Vapi client"]
           , status := "Init error" }
  | .ctorOk c =>
    { s with vapi := some c, handlersWired := true }

/-- `connectedCallback()`: no-op when already mounted; otherwise set the
guard, warn when `public-key` / `assistant-id` are missing, render
(already folded into `initialState`), open immediately when the `open`
attribute requests it, and then settle the asynchronous SDK load: on
rejection log and set status `SDK load failed`; on load run
`_initVapiClient`.  (The `.then` callback runs after the synchronous body,
so the attribute-driven `open()` is applied before the init outcome.) -/
def connectedCallback (lo : LoadOutcome) (publicKey assistantId : Option String)
    (openAttr : Bool) (s : WidgetState) : WidgetState :=
  if s.mounted then s
  else
    let w :=
      if publicKey.isNone || assistantId.isNone then
        s.warnings ++
          ["Missing public-key and/or assistant-id attributes on nxl-ai-widget."]
      else s.warnings
    let s1 := { s with mounted := true, warnings := w }
    let s2 := if openAttr then widgetOpen s1 else s1
    match lo with
    | .loadFail =>
      { s2 with errors := s2.errors ++ ["Failed to load Vapi SDK"]
              , status := "SDK load failed" }
    | .loadOk io => initVapiClient io s2

/-- A user click on the fab element: runs `toggle()` only if the listener
was attached (it is attached inside `_initVapiClient` on success). -/
def clickFab (s : WidgetState) : WidgetState :=
  if s.handlersWired then widgetToggle s else s

/-- A user click on the close button: runs `close()` only if wired. -/
def clickCloseBtn (s : WidgetState) : WidgetState :=
  if s.handlersWired then widgetClose s else s

/-- A user click on the mic element: runs `_toggleMic` only if wired. -/
def clickMic (assistantId : String) (micGranted : Bool)
    (s : WidgetState) : WidgetState × List VapiCall :=
  if s.handlersWired then widgetToggleMic assistantId micGranted s else (s, [])

/-- A user click on the send button: runs `_sendText` only if wired. -/
def clickSend (s : WidgetState) : WidgetState × List VapiCall :=
  if s.handlersWired then widgetSendText s else (s, [])

/-- `call.ended` client callback: status, flags and mic class reset. -/
def onCallEnded (s : WidgetState) : WidgetState :=
  { s with status := "Disconnected", isConnected := false
         , isListening := false, micOn := false }

/-- `call.started` client callback: status and connected flag. -/
def onCallStarted (s : WidgetState) : WidgetState :=
  { s with status := "Connected", isConnected := true }

/-- Destination window of a `postMessage` performed by the host loader:
the host page's own window, or the iframe's content window. -/
inductive Channel
  | hostWindow
  | frameWindow
deriving DecidableEq, Repr

/-- Payload of a cross-frame message: absent, a `listening` object field
(`state` messages), an error value, or a text string (`sendText`). -/
inductive MsgPayload
  | noPayload
  | listening (b : Bool)
  | errPayload (e : String)
  | textPayload (t : String)
deriving DecidableEq, Repr

/-- An outbound `postMessage` performed by the host loader, with the
window it targets and the `source` / `type` / `payload` envelope. -/
structure OutMsg where
  channel : Channel
  source : String
  type : String
  payload : MsgPayload
deriving DecidableEq, Repr

/-- Inbound `message` event data as seen by the host's listener: the
`data` field may be absent / falsy, or an envelope with a `source` tag, a
`type` and an optional payload. -/
inductive MsgData
  | noData
  | msg (source : String) (type : String) (payload : MsgPayload)
deriving DecidableEq, Repr

/-- Truthiness of `data.payload && data.payload.listening`. -/
def payloadListening : MsgPayload → Bool
  | .listening b => b
  | _ => false

/-- Observable state of one `mountIframeWidget` instance: the `open`
boolean (`openFlag`; the source name `open` is a Lean keyword), the
iframe's `nxl-open` class, the fab's `nxl-pulse` class and console
warnings. -/
structure HostState where
  openFlag : Bool
  frameOpenClass : Bool
  fabPulse : Bool
  warnings : List String
deriving DecidableEq, Repr

/-- Host state right after `mountIframeWidget` built the elements. -/
def initHostState : HostState :=
  { openFlag := false, frameOpenClass := false, fabPulse := false
  , warnings := [] }

/-- `toggle()` in the host loader: flip `open`, mirror it onto the
frame's `nxl-open` class, and post `{source:NXL_HOST, type:open|close}`
on the host page's own window (`window.postMessage`). -/
def hostToggle (s : HostState) : HostState × List OutMsg :=
  let o := !s.openFlag
  ({ s with openFlag := o, frameOpenClass := o },
   [{ channel := Channel.hostWindow, source := "NXL_HOST"
    , type := if o then "open" else "close", payload := MsgPayload.noPayload }])

/-- The host's `message` listener: return unless `data` is truthy and
`data.source === 'NXL_IFRAME'`; then run the non-exclusive `if` chain —
`ready` and `sendText` have empty bodies, `state` mirrors the payload's
`listening` truthiness onto the fab's pulse class, `error` logs a
warning, and `close` while `open` runs `toggle()`. -/
def hostOnMessage (s : HostState) (d : MsgData) : HostState × List OutMsg :=
  match d with
  | .noData => (s, [])
  | .msg src ty pl =>
    if src = "NXL_IFRAME" then
      let s1 := if ty = "state" then { s with fabPulse := payloadListening pl }
                else s
      let s2 := if ty = "error" then
                  { s1 with warnings := s1.warnings ++ ["NXL iframe error"] }
                else s1
      if ty = "close" && s2.openFlag then hostToggle s2 else (s2, [])
    else (s, [])

/-- The returned handle's `open()`: `if(!open) toggle()`. -/
def hostOpenApi (s : HostState) : HostState × List OutMsg :=
  if s.openFlag then (s, []) else hostToggle s

/-- The returned handle's `close()`: `if(open) toggle()`. -/
def hostCloseApi (s : HostState) : HostState × List OutMsg :=
  if s.openFlag then hostToggle s else (s, [])

/-- The returned handle's `sendText(t)`: post
`{source:NXL_HOST, type:sendText, payload:String(t||'')}` to the iframe's
content window; no state change. -/
def hostSendText (s : HostState) (t : Option String) : HostState × List OutMsg :=
  (s, [{ channel := Channel.frameWindow, source := "NXL_HOST"
       , type := "sendText", payload := MsgPayload.textPayload (t.getD "") }])

/-- Bool test for `haystack.includes(needle)` on character lists. -/
def listIncludes (needle : List Char) : List Char → Bool
  | [] => needle.isEmpty
  | c :: rest => needle.isPrefixOf (c :: rest) || listIncludes needle rest

/-- JavaScript `String.prototype.includes`. -/
def strIncludes (needle hay : String) : Bool :=
  listIncludes needle.toList hay.toList

/-- Options object passed to `mountIframeWidget`.  `mount` records the
truthiness of the supplied mount point; absent-or-falsy credentials and
options are `none`. -/
structure MountOpts where
  mount : Bool
  publicKey : Option String
  assistantId : Option String
  position : Option String
  widgetUrl : Option String
deriving DecidableEq, Repr

/-- What a successful `mountIframeWidget` call built and returned: the
fab and iframe elements (with their `nxl-left` placement classes), the
warnings issued, and the initial loader state. -/
structure MountResult where
  fabBuilt : Bool
  frameBuilt : Bool
  fabOnLeft : Bool
  frameOnLeft : Bool
  warnings : List String
  state : HostState
deriving DecidableEq, Repr

/-- `NXL.mountIframeWidget(opts)`: destructure `opts || {}` (with
`position` defaulting to `bottom-right`); throw when `mount` is falsy;
warn (non-fatally) when `publicKey` or `assistantId` is falsy; then
build the fab button and the iframe, append both to the mount point, and
start with `open = false`. -/
def mountIframeWidget (opts : Option MountOpts) : Except String MountResult :=
  let o := opts.getD
    { mount := false, publicKey := none, assistantId := none
    , position := none, widgetUrl := none }
  if o.mount = false then
    Except.error "NXL.mountIframeWidget: opts.mount is required"
  else
    let warns :=
      if o.publicKey.isNone || o.assistantId.isNone then
        ["NXL Missing Vapi keys."]
      else []
    let pos := o.position.getD "bottom-right"
    Except.ok
      { fabBuilt := true, frameBuilt := true
      , fabOnLeft := strIncludes "left" pos
      , frameOnLeft := strIncludes "left" pos
      , warnings := warns, state := initHostState }

/-- Whether `mountIframeWidget` threw. -/
def mountRaises (opts : Option MountOpts) : Bool :=
  match mountIframeWidget opts with
  | .error _ => true
  | .ok _ => false

/-- Whether a truthy mount point was supplied in the options. -/
def mountSupplied : Option MountOpts → Bool
  | none => false
  | some o => o.mount

/-- A client whose `stop` method is present but rejects when awaited. -/
def stopErrClient : VapiClient :=
  { start := some CallResult.ok, connectToAssistant := none
  , stop := some CallResult.err, sendText := none }

/-- A fully wired widget that is currently listening and holds
`stopErrClient`. -/
def listeningState : WidgetState :=
  { initialState with
      vapi := some stopErrClient, mounted := true,
      handlersWired := true, isListening := true, micOn := true,
      status := "Listening..." }

/-- A client exposing none of the optional methods. -/
def bareClient : VapiClient :=
  { start := none, connectToAssistant := none, stop := none
  , sendText := none }

/-- A fully wired widget, not listening, holding `bareClient`. -/
def readyStateBare : WidgetState :=
  { initialState with
      vapi := some bareClient, mounted := true, handlersWired := true }

/-- A client whose `sendText` resolves. -/
def sendOkClient : VapiClient :=
  { start := none, connectToAssistant := none, stop := none
  , sendText := some CallResult.ok }

/-- A wired widget with `hi` typed into the composer. -/
def typedState : WidgetState :=
  { initialState with
      vapi := some sendOkClient, mounted := true,
      handlersWired := true, textInput := "hi" }

/-- A mounted widget with only whitespace in the composer input. -/
def wsState : WidgetState :=
  { initialState with textInput := "  " }

/-- Widget state after a mount that ends in the Degraded state:
`connectedCallback` with keys supplied, no `open` attribute, and the
given load outcome. -/
def degradedOf (lo : LoadOutcome) : WidgetState :=
  connectedCallback lo (some "pk") (some "aid") false initialState

/-- The tag check the host listener performs: `data` truthy and
`data.source === 'NXL_IFRAME'`. -/
def fromPeer : MsgData → Bool
  | .noData => false
  | .msg src _ _ => decide (src = "NXL_IFRAME")

/-! ## Helper lemmas -/

/-- The `isOpen` flag after one public panel call matches the spec-side
single-call reduction. -/
theorem applyPanelOp_isOpen (o : PanelOp) (s : WidgetState) :
    (applyPanelOp o s).isOpen = parityStep s.isOpen o := by
  cases o with
  | opOpen => rfl
  | opClose => rfl
  | opToggle =>
    simp only [applyPanelOp, widgetToggle, parityStep]
    cases h : s.isOpen <;> simp [h, widgetOpen, widgetClose]

/-- The `isOpen` flag after a call sequence is its parity reduction. -/
theorem applyPanelOps_isOpen (ops : List PanelOp) (s : WidgetState) :
    (applyPanelOps ops s).isOpen = parityReduce ops s.isOpen := by
  induction ops generalizing s with
  | nil => rfl
  | cons o rest ih =>
    show (applyPanelOps rest (applyPanelOp o s)).isOpen
        = parityReduce rest (parityStep s.isOpen o)
    rw [ih (applyPanelOp o s), applyPanelOp_isOpen]

/-- Trimming a string of whitespace yields the empty string. -/
theorem jsTrim_eq_empty (s : String)
    (h : s.toList.all Char.isWhitespace = true) : jsTrim s = "" := by
  have h1 : List.dropWhile Char.isWhitespace s.data = [] := by
    rw [List.dropWhile_eq_nil_iff]
    intro x hx
    exact List.all_eq_true.mp h x hx
  simp only [jsTrim, String.toList, h1, List.reverse_nil, List.dropWhile_nil]

/-! ## Claim theorems -/

/-- Claim C1, counterexample: with a client whose `stop` method throws,
the talk toggle invoked while listening does invoke `stop`, but
`isListening` remains `true` afterwards — refuting "isListening is always
set to false afterwards". -/
theorem c1_counterexample :
    listeningState.isListening = true
    ∧ (widgetToggleMic "aid" true listeningState).2 = [VapiCall.stopCall]
    ∧ (widgetToggleMic "aid" true listeningState).1.isListening = true := by
  decide

/-- Claim C1, amended: for the talk toggle invoked while listening, the
client's `stop` capability is invoked whenever present; `isListening`
becomes `false` when `stop` is absent or resolves, but when the `stop`
invocation throws, the error is logged and `isListening` remains `true`
(the reset is skipped by the jump into the catch block). -/
theorem c1_stop_behaviour (aid : String) (g : Bool) (s : WidgetState)
    (v : VapiClient) (hv : s.vapi = some v) (hl : s.isListening = true) :
    (v.stop ≠ none → VapiCall.stopCall ∈ (widgetToggleMic aid g s).2)
    ∧ ((v.stop = none ∨ v.stop = some CallResult.ok) →
        (widgetToggleMic aid g s).1.isListening = false)
    ∧ (v.stop = some CallResult.err →
        (widgetToggleMic aid g s).1.isListening = true
        ∧ (widgetToggleMic aid g s).1.errors = s.errors ++ ["stop() failed"]) := by
  refine ⟨?_, ?_, ?_⟩
  · intro hne
    cases hstop : v.stop with
    | none => exact absurd hstop hne
    | some r => cases r <;> simp [widgetToggleMic, hv, hl, hstop]
  · rintro (hstop | hstop) <;> simp [widgetToggleMic, hv, hl, hstop]
  · intro hstop
    simp [widgetToggleMic, hv, hl, hstop]

/-- Claim C1, witness: the amended theorem applied to `listeningState`. -/
theorem c1_witness :
    VapiCall.stopCall ∈ (widgetToggleMic "aid" true listeningState).2
    ∧ (widgetToggleMic "aid" true listeningState).1.isListening = true :=
  ⟨(c1_stop_behaviour "aid" true listeningState stopErrClient rfl rfl).1
      (by decide),
   ((c1_stop_behaviour "aid" true listeningState stopErrClient rfl rfl).2.2
      rfl).1⟩

/-- Claim C2, counterexample: with a client exposing neither `start` nor
`connectToAssistant`, the talk toggle (not listening, permission granted)
reports the warning but then sets `isListening = true` — refuting
"isListening remains false". -/
theorem c2_counterexample :
    readyStateBare.isListening = false
    ∧ "No start/connectToAssistant API found on Vapi instance."
        ∈ (widgetToggleMic "aid" true readyStateBare).1.warnings
    ∧ (widgetToggleMic "aid" true readyStateBare).1.isListening = true := by
  decide

/-- Claim C2, amended: when the client exposes neither start method, the
"no compatible start API" warning is reported and no start invocation is
attempted, but the code then falls through to the shared success lines,
so `isListening` is nonetheless set to `true` (with the `Listening...`
status). -/
theorem c2_no_start_api (aid : String) (s : WidgetState) (v : VapiClient)
    (hv : s.vapi = some v) (hl : s.isListening = false)
    (hs : v.start = none) (hc : v.connectToAssistant = none) :
    (widgetToggleMic aid true s).1.warnings
      = s.warnings ++ ["No start/connectToAssistant API found on Vapi instance."]
    ∧ (widgetToggleMic aid true s).1.isListening = true
    ∧ (widgetToggleMic aid true s).1.status = "Listening..."
    ∧ (widgetToggleMic aid true s).2 = [VapiCall.getUserMedia] := by
  simp [widgetToggleMic, hv, hl, hs, hc]

/-- Claim C2, witness: the amended theorem applied to `readyStateBare`. -/
theorem c2_witness :
    (widgetToggleMic "aid" true readyStateBare).1.warnings
      = readyStateBare.warnings
          ++ ["No start/connectToAssistant API found on Vapi instance."]
    ∧ (widgetToggleMic "aid" true readyStateBare).1.isListening = true
    ∧ (widgetToggleMic "aid" true readyStateBare).1.status = "Listening..."
    ∧ (widgetToggleMic "aid" true readyStateBare).2 = [VapiCall.getUserMedia] :=
  c2_no_start_api "aid" readyStateBare bareClient rfl rfl rfl rfl

/-- Claim C3, counterexample: after an SDK load failure (Degraded), the
fab's click listener was never attached — `_initVapiClient` wires the
handlers only after successful construction — so clicking the fab leaves
the widget unchanged and the panel stays closed, refuting "clicking the
fab still toggles the panel". -/
theorem c3_counterexample :
    (degradedOf LoadOutcome.loadFail).isOpen = false
    ∧ clickFab (degradedOf LoadOutcome.loadFail) = degradedOf LoadOutcome.loadFail
    ∧ (clickFab (degradedOf LoadOutcome.loadFail)).isOpen = false
    ∧ (degradedOf LoadOutcome.loadFail).status = "SDK load failed" := by
  decide

/-- Claim C3, amended: in the Degraded state (script load failure or
client construction error) the status text reports the failure and the
programmatic `open()` / `close()` API still updates the panel, and talk
and text actions are no-ops; but the fab/close/mic/send click listeners
were never attached, so clicking those controls does nothing. -/
theorem c3_degraded (lo : LoadOutcome)
    (h : lo = LoadOutcome.loadFail
         ∨ lo = LoadOutcome.loadOk InitOutcome.ctorThrows) :
    clickFab (degradedOf lo) = degradedOf lo
    ∧ clickCloseBtn (degradedOf lo) = degradedOf lo
    ∧ clickMic "aid" true (degradedOf lo) = (degradedOf lo, [])
    ∧ clickSend (degradedOf lo) = (degradedOf lo, [])
    ∧ widgetToggleMic "aid" true (degradedOf lo) = (degradedOf lo, [])
    ∧ (widgetOpen (degradedOf lo)).isOpen = true
    ∧ (widgetClose (widgetOpen (degradedOf lo))).isOpen = false
    ∧ ((degradedOf lo).status = "SDK load failed"
       ∨ (degradedOf lo).status = "Init error") := by
  rcases h with h | h <;> subst h <;> decide

/-- Claim C3, witness: the amended theorem at the construction-error
outcome. -/
theorem c3_witness :
    clickFab (degradedOf (LoadOutcome.loadOk InitOutcome.ctorThrows))
      = degradedOf (LoadOutcome.loadOk InitOutcome.ctorThrows)
    ∧ clickCloseBtn (degradedOf (LoadOutcome.loadOk InitOutcome.ctorThrows))
      = degradedOf (LoadOutcome.loadOk InitOutcome.ctorThrows)
    ∧ clickMic "aid" true (degradedOf (LoadOutcome.loadOk InitOutcome.ctorThrows))
      = (degradedOf (LoadOutcome.loadOk InitOutcome.ctorThrows), [])
    ∧ clickSend (degradedOf (LoadOutcome.loadOk InitOutcome.ctorThrows))
      = (degradedOf (LoadOutcome.loadOk InitOutcome.ctorThrows), [])
    ∧ widgetToggleMic "aid" true
        (degradedOf (LoadOutcome.loadOk InitOutcome.ctorThrows))
      = (degradedOf (LoadOutcome.loadOk InitOutcome.ctorThrows), [])
    ∧ (widgetOpen (degradedOf (LoadOutcome.loadOk InitOutcome.ctorThrows))).isOpen
      = true
    ∧ (widgetClose (widgetOpen
        (degradedOf (LoadOutcome.loadOk InitOutcome.ctorThrows)))).isOpen = false
    ∧ ((degradedOf (LoadOutcome.loadOk InitOutcome.ctorThrows)).status
          = "SDK load failed"
       ∨ (degradedOf (LoadOutcome.loadOk InitOutcome.ctorThrows)).status
          = "Init error") :=
  c3_degraded (LoadOutcome.loadOk InitOutcome.ctorThrows) (Or.inr rfl)

/-- Claim C4: a toggle in the iframe-host loader posts its `open`/`close`
broadcast on the host page's own window only; the returned `sendText`
capability is the only posting into the iframe's content window; and
every message the inbound handler emits targets the host window — so the
open/close broadcast is never delivered into the frame's channel. -/
theorem c4_toggle_channels (s : HostState) (t : Option String) (d : MsgData) :
    (hostToggle s).2
      = [{ channel := Channel.hostWindow, source := "NXL_HOST"
         , type := if !s.openFlag then "open" else "close"
         , payload := MsgPayload.noPayload }]
    ∧ (hostSendText s t).2
      = [{ channel := Channel.frameWindow, source := "NXL_HOST"
         , type := "sendText", payload := MsgPayload.textPayload (t.getD "") }]
    ∧ ((hostOnMessage s d).2.all
        fun m => decide (m.channel = Channel.hostWindow)) = true := by
  refine ⟨rfl, rfl, ?_⟩
  have key : ∀ (u : HostState) (b : Bool),
      (((if b = true then hostToggle u else (u, [])).2).all
        fun m => decide (m.channel = Channel.hostWindow)) = true := by
    intro u b
    cases b
    · rfl
    · rfl
  cases d with
  | noData => rfl
  | msg src ty pl =>
    by_cases hs : src = "NXL_IFRAME"
    · subst hs
      exact key _ _
    · simp [hostOnMessage, hs]

/-- Claim C5: for every sequence of `open()`/`close()`/`toggle()` calls
starting from a closed state, the resulting `isOpen` flag equals the
parity-reduced result of the sequence; `open()` and `close()` are
idempotent, and each call is a total synchronous state update. -/
theorem c5_panel_parity (ops : List PanelOp) (s : WidgetState)
    (h : s.isOpen = false) :
    (applyPanelOps ops s).isOpen = parityReduce ops false
    ∧ widgetOpen (widgetOpen s) = widgetOpen s
    ∧ widgetClose (widgetClose s) = widgetClose s := by
  refine ⟨?_, rfl, rfl⟩
  rw [applyPanelOps_isOpen, h]

/-- Claim C5, witness: a concrete call sequence from the initial state. -/
theorem c5_witness :
    (applyPanelOps [PanelOp.opOpen, PanelOp.opOpen, PanelOp.opToggle]
        initialState).isOpen
      = parityReduce [PanelOp.opOpen, PanelOp.opOpen, PanelOp.opToggle] false
    ∧ widgetOpen (widgetOpen initialState) = widgetOpen initialState
    ∧ widgetClose (widgetClose initialState) = widgetClose initialState :=
  c5_panel_parity [PanelOp.opOpen, PanelOp.opOpen, PanelOp.opToggle]
    initialState rfl

/-- Claim C6: with the client handle present, a text send whose
third-party `sendText` call resolves appends exactly one `user`
transcript entry and clears the input; one whose call throws appends
nothing and leaves the input as it was. -/
theorem c6_send_outcomes (s : WidgetState) (v : VapiClient)
    (hv : s.vapi = some v) (hne : jsTrim s.textInput ≠ "") :
    (v.sendText = some CallResult.ok →
      (widgetSendText s).1.chat
          = s.chat ++ [{ role := "user", text := jsTrim s.textInput }]
        ∧ (widgetSendText s).1.textInput = "")
    ∧ (v.sendText = some CallResult.err →
      (widgetSendText s).1.chat = s.chat
        ∧ (widgetSendText s).1.textInput = s.textInput) := by
  constructor
  · intro hok
    simp [widgetSendText, hv, hok, hne, appendMsg]
  · intro herr
    simp [widgetSendText, hv, herr, hne]

/-- Claim C6, witness: a successful send from `typedState`. -/
theorem c6_witness :
    (widgetSendText typedState).1.chat
        = typedState.chat ++ [{ role := "user", text := jsTrim typedState.textInput }]
    ∧ (widgetSendText typedState).1.textInput = "" :=
  (c6_send_outcomes typedState sendOkClient rfl (by decide)).1 rfl

/-- Claim C7: when the composer input is empty or whitespace-only, the
text send changes nothing and performs no third-party invocation. -/
theorem c7_blank_send_noop (s : WidgetState)
    (h : s.textInput.toList.all Char.isWhitespace = true) :
    widgetSendText s = (s, []) := by
  have h0 : jsTrim s.textInput = "" := jsTrim_eq_empty s.textInput h
  simp [widgetSendText, h0]

/-- Claim C7, witness: a whitespace-only input. -/
theorem c7_witness : widgetSendText wsState = (wsState, []) :=
  c7_blank_send_noop wsState (by decide)

/-- Claim C8: an inbound window message whose data is absent or whose
`source` tag is not `NXL_IFRAME` leaves the host loader state unchanged
and emits no outbound message. -/
theorem c8_non_peer_ignored (s : HostState) (d : MsgData)
    (h : fromPeer d = false) :
    hostOnMessage s d = (s, []) := by
  cases d with
  | noData => rfl
  | msg src ty pl =>
    have hs : ¬ (src = "NXL_IFRAME") := by simpa [fromPeer] using h
    simp [hostOnMessage, hs]

/-- Claim C8, witness: a message tagged with the host's own tag. -/
theorem c8_witness :
    hostOnMessage initHostState
        (MsgData.msg "NXL_HOST" "open" MsgPayload.noPayload)
      = (initHostState, []) :=
  c8_non_peer_ignored initHostState
    (MsgData.msg "NXL_HOST" "open" MsgPayload.noPayload) (by decide)

/-- Claim C9: a `close` message from the peer received while the open
flag is false leaves the state (open flag, frame styling, pulse,
warnings) unchanged and emits no outbound message. -/
theorem c9_close_when_closed (s : HostState) (pl : MsgPayload)
    (h : s.openFlag = false) :
    hostOnMessage s (MsgData.msg "NXL_IFRAME" "close" pl) = (s, []) := by
  simp [hostOnMessage, h]

/-- Claim C9, witness: the freshly mounted state. -/
theorem c9_witness :
    hostOnMessage initHostState
        (MsgData.msg "NXL_IFRAME" "close" MsgPayload.noPayload)
      = (initHostState, []) :=
  c9_close_when_closed initHostState MsgPayload.noPayload rfl

/-- Claim C10: `mountIframeWidget` raises exactly when no truthy mount
point is supplied; with a mount point but missing credentials it only
warns and still builds the fab and the frame. -/
theorem c10_mount_errors (opts : Option MountOpts) (o : MountOpts)
    (hm : o.mount = true)
    (hk : (o.publicKey.isNone || o.assistantId.isNone) = true) :
    mountRaises opts = !(mountSupplied opts)
    ∧ mountIframeWidget (some o)
      = Except.ok
        { fabBuilt := true, frameBuilt := true
        , fabOnLeft := strIncludes "left" (o.position.getD "bottom-right")
        , frameOnLeft := strIncludes "left" (o.position.getD "bottom-right")
        , warnings := ["NXL Missing Vapi keys."]
        , state := initHostState } := by
  constructor
  · cases opts with
    | none => rfl
    | some p =>
      cases hp : p.mount <;>
        simp [mountRaises, mountIframeWidget, mountSupplied, hp]
  · simp [mountIframeWidget, hm, hk]

/-- Claim C10, witness: no options raises; a mount point with a missing
public key only warns and builds both elements. -/
theorem c10_witness :
    mountRaises none = !(mountSupplied none)
    ∧ mountIframeWidget (some
        { mount := true, publicKey := none, assistantId := some "aid"
        , position := none, widgetUrl := none })
      = Except.ok
        { fabBuilt := true, frameBuilt := true
        , fabOnLeft := strIncludes "left" "bottom-right"
        , frameOnLeft := strIncludes "left" "bottom-right"
        , warnings := ["NXL Missing Vapi keys."]
        , state := initHostState } :=
  c10_mount_errors none
    { mount := true, publicKey := none, assistantId := some "aid"
    , position := none, widgetUrl := none } rfl rfl
